import Mathlib

/-!
Verification of the SecureIoTOS kernel core against its specification.

Shallow embedding of the relevant Rust modules:

* `src/kernel/src/syscall.rs`   — syscall layer (encoding, args, dispatch, entry)
* `src/memory/src/stack.rs`     — stack guard (watermark, canary, usage estimate)
* `src/scheduler_ipc/src/scheduler.rs` — round-robin scheduler
* `src/memory/src/heap.rs`      — heap OOM failure policy
* `src/kernel/src/context.rs`   — context switch (Cortex-M callee-saved frame)

Machine integers are modelled as `Nat` with explicit `% 2 ^ w` where the Rust
code truncates; fallible code returns `Except`.
-/

deriving instance DecidableEq for Except

namespace SecureIoTOS

/-! ## Syscall layer (src/kernel/src/syscall.rs) -/

/-- Maximum syscall arguments supported (`MAX_SYSCALL_ARGS` in the source). -/
def MAX_SYSCALL_ARGS : Nat := 6

/-- Error codes, `repr(u32)` in the source. -/
inductive SyscallError where
  | Invalid
  | BadAddress
  | PermissionDenied
  | TooLarge
  | NotFound
  | Unsupported
  | Unknown
deriving DecidableEq

/-- Numeric code of each error (the `repr(u32)` discriminant values). -/
def SyscallError.code : SyscallError → Nat
  | .Invalid => 1
  | .BadAddress => 2
  | .PermissionDenied => 3
  | .TooLarge => 4
  | .NotFound => 5
  | .Unsupported => 6
  | .Unknown => 0xFFFF

/-- Encoding of a handler result into the raw `u32` returned to user space:
top bit clear means success with the value in the low 31 bits, top bit set
means failure with the error code in the low 31 bits
(`encode_syscall_result` in the source). -/
def encode_syscall_result : Except SyscallError Nat → Nat
  | .ok v => v
  | .error e => 0x80000000 ||| (e.code &&& 0x7FFFFFFF)

/-- Decoding of a raw result word, following the encoding scheme documented at
`encode_syscall_result` in the source: top bit `0x80000000` clear means
success and the word is the value; top bit set means failure and the low 31
bits are the error code. -/
def decode_syscall_result (w : Nat) : Except Nat Nat :=
  if w &&& 0x80000000 = 0 then .ok w else .error (w &&& 0x7FFFFFFF)

/-- Partial inverse of `SyscallError.code`, recovering the error kind from a
decoded error code. -/
def codeToError : Nat → Option SyscallError
  | 1 => some .Invalid
  | 2 => some .BadAddress
  | 3 => some .PermissionDenied
  | 4 => some .TooLarge
  | 5 => some .NotFound
  | 6 => some .Unsupported
  | 0xFFFF => some .Unknown
  | _ => none

/-- Representation of up to 6 syscall arguments (`SyscallArgs` in the source).
The Rust field `args` is a fixed array `[u64; 6]`; we model it as a list, and
every construction in this development keeps its length equal to
`MAX_SYSCALL_ARGS`. -/
structure SyscallArgs where
  args : List Nat
  nargs : Nat
deriving DecidableEq

/-- Fetch argument `idx` truncated to `u32` (`SyscallArgs::arg_u32`). Rust
indexing of the backing array would abort out of bounds; the guard
`idx >= nargs` together with the length-6 construction invariant keeps every
access in bounds, so the `getD` default is never reached. -/
def SyscallArgs.arg_u32 (a : SyscallArgs) (idx : Nat) : Except SyscallError Nat :=
  if idx ≥ a.nargs then .error .Invalid
  else .ok ((a.args.getD idx 0) % 2 ^ 32)

/-- Fetch argument `idx` as `u64` (`SyscallArgs::arg_u64`). -/
def SyscallArgs.arg_u64 (a : SyscallArgs) (idx : Nat) : Except SyscallError Nat :=
  if idx ≥ a.nargs then .error .Invalid
  else .ok (a.args.getD idx 0)

/-- Syscall identifiers with their stable ABI values (`SyscallId`). -/
inductive SyscallId where
  | GetTime
  | SendMessage
deriving DecidableEq

/-- Resolution of a raw identifier (`TryFrom<u32> for SyscallId`): 1 is
`GetTime`, 2 is `SendMessage`, everything else fails. -/
def SyscallId.tryFrom : Nat → Option SyscallId
  | 1 => some .GetTime
  | 2 => some .SendMessage
  | _ => none

/-- Execution context of the calling task (`CurrentContext`). -/
structure CurrentContext where
  uid : Nat
  capabilities : Nat
deriving DecidableEq

/-- Capability bit required for `GetTime` (`caps::SYS_TIME`). -/
def caps.SYS_TIME : Nat := 1 <<< 0

/-- Capability bit required for `SendMessage` (`caps::SEND_MESSAGE`). -/
def caps.SEND_MESSAGE : Nat := 1 <<< 1

/-- The stub `current_context` of the source: uid 0 with both capabilities. -/
def current_context : CurrentContext :=
  { uid := 0, capabilities := caps.SYS_TIME ||| caps.SEND_MESSAGE }

/-- The stub kernel time source (`kernel_get_time_seconds`). -/
def kernel_get_time_seconds : Nat := 1700000000

/-- The IPC sending primitive stub (`kernel_ipc_send`), which always
succeeds in the source. -/
def kernel_ipc_send (_dest : Nat) (_buf : List Nat) : Except Unit Unit := .ok ()

/-- The type of the user-memory copy primitive, the parameter through which
the handlers receive `copy_from_user`: given a pointer and a length it
returns the bytes read or fails. The function of that type actually present
in the source is `copy_from_user_stub` below, which never fails. -/
def UserMemory : Type := Nat → Nat → Except Unit (List Nat)

/-- The `copy_from_user` function as present in the source: it builds a raw
slice of `dst.len()` bytes at `user_ptr` with no validation whatsoever,
copies it, and returns `Ok(())` unconditionally — there is no failure path.
User address space is modelled as a total byte map `um`; the unchecked copy
reads the `len` bytes starting at `ptr` and always succeeds. -/
def copy_from_user_stub (um : Nat → Nat) : UserMemory :=
  fun ptr len => .ok ((List.range len).map fun i => um (ptr + i))

/-- The `GetTime` handler (`GetTimeSyscall::handle`): checks the `SYS_TIME`
capability, then returns the kernel time. -/
def GetTimeSyscall.handle (ctx : CurrentContext) (_args : SyscallArgs) :
    Except SyscallError Nat :=
  if ctx.capabilities &&& caps.SYS_TIME = 0 then .error .PermissionDenied
  else .ok kernel_get_time_seconds

/-- The `SendMessage` handler (`SendMessageSyscall::handle`): checks the
`SEND_MESSAGE` capability; reads pointer, length and destination arguments
(the Rust `as usize` / `as u32` casts truncate to 32 bits on the Cortex-M
target); rejects length 0 or above 4096 with `TooLarge`; copies from user
memory (failure maps to `BadAddress`); sends over IPC (failure maps to
`Unknown`); returns 0. -/
def SendMessageSyscall.handle (copy_from_user : UserMemory)
    (ctx : CurrentContext) (args : SyscallArgs) : Except SyscallError Nat := do
  if ctx.capabilities &&& caps.SEND_MESSAGE = 0 then
    throw .PermissionDenied
  else
    let ptrArg ← (args.arg_u64 0).mapError fun _ => SyscallError.Invalid
    let lenArg ← (args.arg_u64 1).mapError fun _ => SyscallError.Invalid
    let destArg ← (args.arg_u64 2).mapError fun _ => SyscallError.Invalid
    let ptr := ptrArg % 2 ^ 32
    let len := lenArg % 2 ^ 32
    let dest := destArg % 2 ^ 32
    if len = 0 ∨ len > 4096 then
      throw .TooLarge
    else
      let buf ← (copy_from_user ptr len).mapError fun _ => SyscallError.BadAddress
      let _ ← (kernel_ipc_send dest buf).mapError fun _ => SyscallError.Unknown
      pure 0

/-- The dispatcher (`dispatch_syscall`): maps a `SyscallId` to its handler. -/
def dispatch_syscall (copy_from_user : UserMemory) (id : SyscallId)
    (ctx : CurrentContext) (args : SyscallArgs) : Except SyscallError Nat :=
  match id with
  | .GetTime => GetTimeSyscall.handle ctx args
  | .SendMessage => SendMessageSyscall.handle copy_from_user ctx args

/-- The argument structure built by `syscall_entry`: all six register words,
with `nargs` assumed to be the maximum. -/
def entryArgs (a0 a1 a2 a3 a4 a5 : Nat) : SyscallArgs :=
  { args := [a0, a1, a2, a3, a4, a5], nargs := MAX_SYSCALL_ARGS }

/-- The C ABI entrypoint (`syscall_entry`), generalized over the dispatch
function so that independence from every handler can be stated: builds the
argument structure, resolves the identifier (unknown identifier returns the
encoded `Invalid` error without dispatching), obtains the current context,
dispatches, and encodes the result. -/
def syscall_entryGen
    (dispatch : SyscallId → CurrentContext → SyscallArgs → Except SyscallError Nat)
    (raw_id a0 a1 a2 a3 a4 a5 : Nat) : Nat :=
  let args := entryArgs a0 a1 a2 a3 a4 a5
  match SyscallId.tryFrom raw_id with
  | none => encode_syscall_result (.error .Invalid)
  | some id =>
      let ctx := current_context
      encode_syscall_result (dispatch id ctx args)

/-- The C ABI entrypoint as compiled: `syscall_entryGen` applied to the real
dispatcher. -/
def syscall_entry (copy_from_user : UserMemory) (raw_id a0 a1 a2 a3 a4 a5 : Nat) : Nat :=
  syscall_entryGen (dispatch_syscall copy_from_user) raw_id a0 a1 a2 a3 a4 a5

/-! ## Stack guard (src/memory/src/stack.rs) -/

/-- Watermark fill byte (`STACK_PATTERN`). -/
def STACK_PATTERN : Nat := 0xA5

/-- The 8-byte canary sequence written at the lowest addresses of a stack
(`STACK_CANARY`). -/
def STACK_CANARY : List Nat := [0xDE, 0xAD, 0xBE, 0xEF, 0xCA, 0xFE, 0xBA, 0xBE]

/-- Fill a task stack with a byte pattern (`write_task_stack`). -/
def write_task_stack (stack : List Nat) (data : Nat) : List Nat :=
  List.replicate stack.length data

/-- Write the canary over the lowest 8 bytes (`write_canary`); Rust
`copy_from_slice` aborts when the stack is shorter than the canary, so the
claims below assume length at least 8, where this model is exact. -/
def write_canary (stack : List Nat) : List Nat :=
  STACK_CANARY ++ stack.drop STACK_CANARY.length

/-- Initialize a task stack with watermark plus canary (`init_task_stack`). -/
def init_task_stack (stack : List Nat) : List Nat :=
  write_canary (write_task_stack stack STACK_PATTERN)

/-- Canary verification (`check_canary`): true when the lowest 8 bytes equal
the canary sequence; the Rust function aborts the kernel (fatal condition)
exactly when this is false. -/
def check_canary (stack : List Nat) : Bool :=
  stack.take STACK_CANARY.length == STACK_CANARY

/-- Estimate of used stack bytes (`used_stack_bytes`): count contiguous
watermark bytes from the top (the reverse iterator of the source), subtract
from the length with saturation. -/
def used_stack_bytes (stack : List Nat) : Nat :=
  stack.length - (stack.reverse.takeWhile (fun b => b == STACK_PATTERN)).length

/-- Remaining free bytes (`free_stack_bytes`). -/
def free_stack_bytes (stack : List Nat) : Nat :=
  stack.length - used_stack_bytes stack

/-! ## Round-robin scheduler (src/scheduler_ipc/src/scheduler.rs) -/

/-- Task descriptor of the scheduler crate (`Task` in
`src/scheduler_ipc/src/tasks.rs`): id, privilege level, and the saved stack
pointer value. -/
structure SchedTask where
  id : Nat
  privilege : Nat
  stack_pointer : Nat
deriving DecidableEq

/-- The round-robin scheduler state (`Scheduler`): the task list and the
index of the currently running task. `Scheduler::new` starts with
`current = 0`. -/
structure Scheduler where
  tasks : List SchedTask
  current : Nat
deriving DecidableEq

/-- One scheduling step (`Scheduler::schedule`): compute
`next = (current + 1) % tasks.len()`, perform `context_switch` from the task
at index `current` to the task at index `next` (returned here as the pair of
indices of the switch that is invoked), and set `current = next`. -/
def Scheduler.schedule (s : Scheduler) : Scheduler × (Nat × Nat) :=
  let next := (s.current + 1) % s.tasks.length
  ({ s with current := next }, (s.current, next))

/-- The state transformation of one `schedule` call. -/
def Scheduler.step (s : Scheduler) : Scheduler :=
  (s.schedule).1

/-- The sequence of `current` values observed after each of the first `n`
consecutive `schedule` calls starting from state `s`. -/
def schedSeq (s : Scheduler) (n : Nat) : List Nat :=
  (List.range n).map fun k => (Scheduler.step^[k + 1] s).current

/-! ## Heap OOM failure policy (src/memory/src/heap.rs) -/

/-- An allocation request (`core::alloc::Layout`): size and alignment. -/
structure Layout where
  size : Nat
  align : Nat
deriving DecidableEq

/-- Diagnostic record written on allocation failure (`OomRecord`). -/
structure OomRecord where
  size : Nat
  align : Nat
  magic : Nat
deriving DecidableEq

/-- The fixed marker constant written into `OomRecord.magic`
(the `"OOM!"` marker `0x4F4F4D21` in `alloc_error_handler`). -/
def OOM_MAGIC : Nat := 0x4F4F4D21

/-- Observable actions of the allocation-failure path, in program order:
masking interrupts (`interrupt::disable`), writing the statically reserved
`OOM_RECORD` slot, invoking the registered user callback, and the system
reset (`SCB::sys_reset`). -/
inductive OomEvent where
  | disableInterrupts
  | writeOomRecord (r : OomRecord)
  | userCallback (l : Layout)
  | sysReset
deriving DecidableEq

/-- The allocation-failure handler (`alloc_error_handler`), as the trace of
its observable actions: it disables interrupts, writes the `OomRecord`
(requested size, requested alignment, marker constant) to the reserved slot
— a plain store, no allocation — then calls the user hook exactly when one
was registered via `set_oom_handler`, and finally performs the system reset.
The function diverges in Rust; the trace ends at the reset, nothing follows
it. -/
def alloc_error_handler (oomUserHandler : Option Unit) (layout : Layout) :
    List OomEvent :=
  [OomEvent.disableInterrupts,
   OomEvent.writeOomRecord { size := layout.size, align := layout.align, magic := OOM_MAGIC }]
  ++ (match oomUserHandler with
      | some _ => [OomEvent.userCallback layout]
      | none => [])
  ++ [OomEvent.sysReset]

/-- Recognizer for OOM-record writes in a trace. -/
def OomEvent.isWrite : OomEvent → Bool
  | .writeOomRecord _ => true
  | _ => false

/-- Recognizer for user-callback invocations in a trace. -/
def OomEvent.isCallback : OomEvent → Bool
  | .userCallback _ => true
  | _ => false

/-! ## Context switch (src/kernel/src/context.rs)

The save and restore of CPU state are Cortex-M assembly; we model the
machine they manipulate: the callee-saved registers R4-R11, the process
stack pointer PSP, and a word-addressed memory (each cell holds the 32-bit
word stored at a 4-byte-aligned byte address). -/

/-- Kernel task descriptor (`Task` in `src/kernel/src/context.rs`): id,
privilege, and saved stack pointer (a raw pointer, modelled as its
address). -/
structure KTask where
  id : Nat
  privilege : Nat
  stack_pointer : Nat
deriving DecidableEq

/-- The CPU state touched by the context switch: callee-saved registers
R4-R11 and the process stack pointer. -/
structure CpuState where
  r4 : Nat
  r5 : Nat
  r6 : Nat
  r7 : Nat
  r8 : Nat
  r9 : Nat
  r10 : Nat
  r11 : Nat
  psp : Nat
deriving DecidableEq

/-- Word-addressed memory: a map from byte addresses of 4-byte words to the
word stored there. -/
def Mem : Type := Nat → Nat

/-- Store a word at an address. -/
def Mem.write (m : Mem) (a v : Nat) : Mem :=
  fun x => if x = a then v else m x

/-- Load the word at an address. -/
def Mem.read (m : Mem) (a : Nat) : Nat := m a

/-- The multi-store of the `stmdb` instruction with register list R4-R11 and
pre-decremented base `sp`: R4 goes to the lowest address `sp`, R11 to
`sp + 28`. -/
def Mem.pushFrame (m : Mem) (sp : Nat) (c : CpuState) : Mem :=
  ((((((((m.write sp c.r4).write (sp + 4) c.r5).write
      (sp + 8) c.r6).write (sp + 12) c.r7).write (sp + 16) c.r8).write
      (sp + 20) c.r9).write (sp + 24) c.r10).write (sp + 28) c.r11)

/-- The machine: CPU state plus memory. -/
structure Machine where
  cpu : CpuState
  mem : Mem

/-- Save CPU state (`save_cpu_state`): read PSP, push R4-R11 below it
(`stmdb` pre-decrements by the 32-byte frame), and record the resulting
stack pointer in the task descriptor. The hardware PSP register itself is
not written by this function — the writeback of the assembly is to a scratch
register. -/
def save_cpu_state (task : KTask) (m : Machine) : KTask × Machine :=
  let sp := m.cpu.psp - 32
  ({ task with stack_pointer := sp }, { m with mem := m.mem.pushFrame sp m.cpu })

/-- Restore CPU state (`restore_cpu_state`): pop R4-R11 from the task saved
stack pointer (`ldmia` loads the lowest-numbered register from the lowest
address and post-increments by 32 bytes) and write the resulting pointer to
PSP. -/
def restore_cpu_state (task : KTask) (m : Machine) : Machine :=
  let sp := task.stack_pointer
  { m with cpu :=
      { r4 := m.mem.read sp
        r5 := m.mem.read (sp + 4)
        r6 := m.mem.read (sp + 8)
        r7 := m.mem.read (sp + 12)
        r8 := m.mem.read (sp + 16)
        r9 := m.mem.read (sp + 20)
        r10 := m.mem.read (sp + 24)
        r11 := m.mem.read (sp + 28)
        psp := sp + 32 } }

/-- The context switch (`context_switch`): save the current task state, then
restore the next task state; returns the updated current-task descriptor and
the resulting machine. -/
def context_switch (current next : KTask) (m : Machine) : KTask × Machine :=
  let sm := save_cpu_state current m
  (sm.1, restore_cpu_state next sm.2)

/-- A concrete user memory in which every pointer is mapped: reading returns
zero-filled bytes. Used to instantiate theorems at concrete inputs. -/
def okUserMemory : UserMemory := fun _ len => .ok (List.replicate len 0)

/-! ## Helper lemmas -/

/-- The top bit of a value below `2 ^ 31` is clear. -/
lemma and_top_bit_of_lt (v : Nat) (h : v < 2 ^ 31) : v &&& 0x80000000 = 0 := by
  have h31 : (0x80000000 : Nat) = 2 ^ 31 := by norm_num
  rw [h31, Nat.and_two_pow, Nat.testBit_eq_false_of_lt h]
  simp

/-- Masking a value below `2 ^ 31` with the low-31-bit mask is the identity. -/
lemma and_low_mask_of_lt (v : Nat) (h : v < 2 ^ 31) : v &&& 0x7FFFFFFF = v := by
  have h31 : (0x7FFFFFFF : Nat) = 2 ^ 31 - 1 := by norm_num
  rw [h31, Nat.and_pow_two_sub_one_eq_mod, Nat.mod_eq_of_lt h]

/-- A `takeWhile` for the fill byte passes over a leading replicate block. -/
lemma takeWhile_replicate_append (n : Nat) (a : Nat) (l : List Nat) :
    (List.replicate n a ++ l).takeWhile (fun b => b == a) =
      List.replicate n a ++ l.takeWhile (fun b => b == a) := by
  induction n with
  | zero => simp
  | succ k ih => simp [List.replicate_succ, List.takeWhile, ih]

/-- The initialized stack is the canary followed by the watermark fill. -/
lemma init_task_stack_eq (stack : List Nat) :
    init_task_stack stack =
      STACK_CANARY ++ List.replicate (stack.length - 8) STACK_PATTERN := by
  simp [init_task_stack, write_canary, write_task_stack, List.drop_replicate,
    STACK_CANARY]

/-- One scheduling step preserves the task list. -/
lemma Scheduler.step_tasks (s : Scheduler) : (Scheduler.step s).tasks = s.tasks := rfl

/-- One scheduling step advances the current index round-robin. -/
lemma Scheduler.step_current (s : Scheduler) :
    (Scheduler.step s).current = (s.current + 1) % s.tasks.length := rfl

/-- After `k` schedule calls from index 0, the task list is unchanged and the
current index is `k` modulo the task count. -/
lemma sched_iterate (ts : List SchedTask) (k : Nat) :
    (Scheduler.step^[k] ⟨ts, 0⟩).tasks = ts ∧
    (Scheduler.step^[k] ⟨ts, 0⟩).current = k % ts.length := by
  induction k with
  | zero => exact ⟨rfl, (Nat.zero_mod _).symm⟩
  | succ n ih =>
    rw [Function.iterate_succ_apply']
    refine ⟨(Scheduler.step_tasks _).trans ih.1, ?_⟩
    rw [Scheduler.step_current, ih.1, ih.2, Nat.mod_add_mod]

/-- Reading a different address than the one written passes through. -/
lemma Mem.read_write_ne (m : Mem) (a v x : Nat) (h : x ≠ a) :
    (m.write a v).read x = m.read x := by
  simp [Mem.write, Mem.read, h]

/-- Reading outside a pushed frame sees the previous memory. -/
lemma Mem.pushFrame_read_out (m : Mem) (sp : Nat) (c : CpuState) (x : Nat)
    (h : x < sp ∨ sp + 32 ≤ x) :
    (m.pushFrame sp c).read x = m.read x := by
  unfold Mem.pushFrame
  rw [Mem.read_write_ne _ _ _ _ (by omega), Mem.read_write_ne _ _ _ _ (by omega),
    Mem.read_write_ne _ _ _ _ (by omega), Mem.read_write_ne _ _ _ _ (by omega),
    Mem.read_write_ne _ _ _ _ (by omega), Mem.read_write_ne _ _ _ _ (by omega),
    Mem.read_write_ne _ _ _ _ (by omega), Mem.read_write_ne _ _ _ _ (by omega)]

/-- Reading back each slot of a pushed frame returns the pushed register. -/
lemma Mem.pushFrame_reads (m : Mem) (sp : Nat) (c : CpuState) :
    (m.pushFrame sp c).read sp = c.r4 ∧
    (m.pushFrame sp c).read (sp + 4) = c.r5 ∧
    (m.pushFrame sp c).read (sp + 8) = c.r6 ∧
    (m.pushFrame sp c).read (sp + 12) = c.r7 ∧
    (m.pushFrame sp c).read (sp + 16) = c.r8 ∧
    (m.pushFrame sp c).read (sp + 20) = c.r9 ∧
    (m.pushFrame sp c).read (sp + 24) = c.r10 ∧
    (m.pushFrame sp c).read (sp + 28) = c.r11 := by
  unfold Mem.pushFrame
  refine ⟨?_, ?_, ?_, ?_, ?_, ?_, ?_, ?_⟩ <;>
    simp [Mem.write, Mem.read]

/-- The successor-mod sequence over `range N` is `1, 2, …, N-1, 0`. -/
lemma range_map_succ_mod (N : Nat) (h : 1 ≤ N) :
    (List.range N).map (fun k => (k + 1) % N) = List.range' 1 (N - 1) ++ [0] := by
  apply List.ext_getElem
  · simp
    omega
  · intro i hi1 hi2
    simp only [List.getElem_map, List.getElem_range]
    by_cases hlt : i < N - 1
    · rw [List.getElem_append_left (by simpa using hlt), List.getElem_range'_1]
      have hiN : i + 1 < N := by omega
      rw [Nat.mod_eq_of_lt hiN]
      omega
    · have hie : i = N - 1 := by
        simp only [List.length_map, List.length_range] at hi1
        omega
      rw [List.getElem_append_right (by simp; omega)]
      have h1 : i + 1 = N := by omega
      simp [h1, Nat.mod_self]

/-! ## Claim theorems -/

/-- C1: from a task list of length `N ≥ 1` and `current = 0`, every
`Scheduler::schedule` call sets `current` to `(previous + 1) mod N` and
invokes the context switch from the old current task index to the new one;
the sequence of `current` values over the first `N` calls is exactly
`1, 2, …, N-1, 0`, and every index below `N` occurs exactly once in it. -/
theorem round_robin_fairness (ts : List SchedTask) (hN : 1 ≤ ts.length) :
    (∀ s : Scheduler, s.tasks = ts →
      (s.schedule).1.tasks = ts ∧
      (s.schedule).1.current = (s.current + 1) % ts.length ∧
      (s.schedule).2 = (s.current, (s.current + 1) % ts.length)) ∧
    schedSeq ⟨ts, 0⟩ ts.length = List.range' 1 (ts.length - 1) ++ [0] ∧
    (∀ i < ts.length, (schedSeq ⟨ts, 0⟩ ts.length).count i = 1) := by
  have hseq : schedSeq ⟨ts, 0⟩ ts.length
      = (List.range ts.length).map (fun k => (k + 1) % ts.length) := by
    unfold schedSeq
    apply List.map_congr_left
    intro k _
    exact (sched_iterate ts (k + 1)).2
  refine ⟨?_, ?_, ?_⟩
  · intro s hs
    exact ⟨by simp [Scheduler.schedule, hs], by simp [Scheduler.schedule, hs],
      by simp [Scheduler.schedule, hs]⟩
  · rw [hseq, range_map_succ_mod ts.length hN]
  · intro i hi
    rw [hseq, range_map_succ_mod ts.length hN, List.count_append]
    by_cases h0 : i = 0
    · subst h0
      have hz : List.count 0 (List.range' 1 (ts.length - 1)) = 0 := by
        apply List.count_eq_zero_of_not_mem
        intro hmem
        have := List.mem_range'_1.mp hmem
        omega
      simp [hz]
    · have hc1 : List.count i (List.range' 1 (ts.length - 1)) = 1 :=
        List.count_eq_one_of_mem (List.nodup_range' ..)
          (List.mem_range'_1.mpr ⟨by omega, by omega⟩)
      have hc0 : List.count i [0] = 0 := by
        simp [List.count_singleton]
        omega
      rw [hc1, hc0]

/-- C1 witness: with three tasks the first three calls yield current indices
1, 2, 0, each exactly once. -/
theorem round_robin_fairness_witness :
    1 ≤ ([⟨0, 0, 0⟩, ⟨1, 1, 0⟩, ⟨2, 1, 0⟩] : List SchedTask).length ∧
    schedSeq ⟨[⟨0, 0, 0⟩, ⟨1, 1, 0⟩, ⟨2, 1, 0⟩], 0⟩ 3 = [1, 2, 0] :=
  ⟨by decide,
    by
      have h := (round_robin_fairness [⟨0, 0, 0⟩, ⟨1, 1, 0⟩, ⟨2, 1, 0⟩] (by decide)).2.1
      simpa using h⟩

/-- C2: for every `v < 2 ^ 31` the encoding of `Ok v` has the top bit clear
and its low 31 bits equal `v`, and decoding recovers `v`; for every error
kind `e` the encoding of `Err e` has the top bit set, its low 31 bits equal
the numeric code of `e`, and decoding recovers `e` exactly. -/
theorem syscall_encoding_roundtrip :
    (∀ v : Nat, v < 2 ^ 31 →
      encode_syscall_result (.ok v) &&& 0x80000000 = 0 ∧
      encode_syscall_result (.ok v) &&& 0x7FFFFFFF = v ∧
      decode_syscall_result (encode_syscall_result (.ok v)) = .ok v) ∧
    (∀ e : SyscallError,
      encode_syscall_result (.error e) &&& 0x80000000 ≠ 0 ∧
      encode_syscall_result (.error e) &&& 0x7FFFFFFF = e.code ∧
      decode_syscall_result (encode_syscall_result (.error e)) = .error e.code ∧
      codeToError (encode_syscall_result (.error e) &&& 0x7FFFFFFF) = some e) := by
  constructor
  · intro v hv
    have htop : encode_syscall_result (.ok v) &&& 0x80000000 = 0 :=
      and_top_bit_of_lt v hv
    refine ⟨htop, and_low_mask_of_lt v hv, ?_⟩
    simp only [decode_syscall_result, encode_syscall_result] at htop ⊢
    rw [if_pos htop]
  · intro e
    cases e <;> exact ⟨by decide, by decide, by decide, by decide⟩

/-- C2 witness: the round-trip instantiated at `v = 42`. -/
theorem syscall_encoding_roundtrip_witness :
    (42 : Nat) < 2 ^ 31 ∧
    (encode_syscall_result (.ok 42) &&& 0x80000000 = 0 ∧
      encode_syscall_result (.ok 42) &&& 0x7FFFFFFF = 42 ∧
      decode_syscall_result (encode_syscall_result (.ok 42)) = .ok 42) :=
  ⟨by norm_num, syscall_encoding_roundtrip.1 42 (by norm_num)⟩

/-- C5: dispatching `GetTime` with a context whose capability bitmask lacks
the `SYS_TIME` bit returns `PermissionDenied` (the handler body does not run
further), and with the bit present it returns `Ok` of the kernel time. -/
theorem gettime_capability_enforcement (copy : UserMemory)
    (ctx : CurrentContext) (args : SyscallArgs) :
    (ctx.capabilities &&& caps.SYS_TIME = 0 →
      dispatch_syscall copy .GetTime ctx args = .error .PermissionDenied) ∧
    (ctx.capabilities &&& caps.SYS_TIME ≠ 0 →
      dispatch_syscall copy .GetTime ctx args = .ok kernel_get_time_seconds) := by
  constructor
  · intro h
    simp [dispatch_syscall, GetTimeSyscall.handle, h]
  · intro h
    simp [dispatch_syscall, GetTimeSyscall.handle, h]

/-- C5 witness: a context with capabilities `2` (only `SEND_MESSAGE`) is
denied, and a context with capabilities `3` (including `SYS_TIME`)
succeeds. -/
theorem gettime_capability_enforcement_witness :
    (({ uid := 0, capabilities := 2 } : CurrentContext).capabilities &&&
        caps.SYS_TIME = 0 ∧
      dispatch_syscall okUserMemory .GetTime { uid := 0, capabilities := 2 }
        (entryArgs 0 0 0 0 0 0) = .error .PermissionDenied) ∧
    (({ uid := 0, capabilities := 3 } : CurrentContext).capabilities &&&
        caps.SYS_TIME ≠ 0 ∧
      dispatch_syscall okUserMemory .GetTime { uid := 0, capabilities := 3 }
        (entryArgs 0 0 0 0 0 0) = .ok kernel_get_time_seconds) :=
  ⟨⟨by decide, (gettime_capability_enforcement okUserMemory _ _).1 (by decide)⟩,
   ⟨by decide, (gettime_capability_enforcement okUserMemory _ _).2 (by decide)⟩⟩

/-- C8: for every raw identifier other than 1 and 2 the resolution fails,
`syscall_entry` returns the encoded `Invalid` error (`0x80000001`), and this
holds for every possible dispatch function, so no handler is invoked and the
kernel state cannot be affected by the failed call. -/
theorem unknown_syscall_rejected
    (dispatch : SyscallId → CurrentContext → SyscallArgs → Except SyscallError Nat)
    (copy : UserMemory) (raw a0 a1 a2 a3 a4 a5 : Nat)
    (h1 : raw ≠ 1) (h2 : raw ≠ 2) :
    SyscallId.tryFrom raw = none ∧
    syscall_entryGen dispatch raw a0 a1 a2 a3 a4 a5
      = encode_syscall_result (.error .Invalid) ∧
    syscall_entry copy raw a0 a1 a2 a3 a4 a5 = 0x80000001 := by
  have htf : SyscallId.tryFrom raw = none := by
    rcases raw with _ | _ | _ | n
    · rfl
    · exact absurd rfl h1
    · exact absurd rfl h2
    · rfl
  refine ⟨htf, by simp only [syscall_entryGen, htf], ?_⟩
  simp only [syscall_entry, syscall_entryGen, htf]
  decide

/-- C8 witness: raw identifier 7 is rejected with the encoded `Invalid`
error. -/
theorem unknown_syscall_rejected_witness :
    (7 : Nat) ≠ 1 ∧ (7 : Nat) ≠ 2 ∧
    (SyscallId.tryFrom 7 = none ∧
      syscall_entryGen (dispatch_syscall okUserMemory) 7 0 0 0 0 0 0
        = encode_syscall_result (.error .Invalid) ∧
      syscall_entry okUserMemory 7 0 0 0 0 0 0 = 0x80000001) :=
  ⟨by decide, by decide,
    unknown_syscall_rejected (dispatch_syscall okUserMemory) okUserMemory
      7 0 0 0 0 0 0 (by decide) (by decide)⟩

/-- C9: the argument structure built by `syscall_entry` always has `nargs`
equal to the maximum 6, regardless of the argument values, and for every
index below 6 both `arg_u64` and `arg_u32` return `Ok` (so their `Invalid`
branch is unreachable from `syscall_entry`, and a handler cannot detect a
missing argument through the count). -/
theorem entry_args_always_ok (a0 a1 a2 a3 a4 a5 idx : Nat)
    (hidx : idx < MAX_SYSCALL_ARGS) :
    (entryArgs a0 a1 a2 a3 a4 a5).nargs = MAX_SYSCALL_ARGS ∧
    (entryArgs a0 a1 a2 a3 a4 a5).arg_u64 idx
      = .ok ((entryArgs a0 a1 a2 a3 a4 a5).args.getD idx 0) ∧
    (entryArgs a0 a1 a2 a3 a4 a5).arg_u32 idx
      = .ok ((entryArgs a0 a1 a2 a3 a4 a5).args.getD idx 0 % 2 ^ 32) := by
  refine ⟨rfl, ?_, ?_⟩
  · simp [SyscallArgs.arg_u64, entryArgs, Nat.not_le.mpr hidx]
  · simp [SyscallArgs.arg_u32, entryArgs, Nat.not_le.mpr hidx]

/-- C9 witness: index 3 of the entry arguments (10, 20, 30, 40, 50, 60)
reads back 40. -/
theorem entry_args_always_ok_witness :
    (3 : Nat) < MAX_SYSCALL_ARGS ∧
    ((entryArgs 10 20 30 40 50 60).nargs = MAX_SYSCALL_ARGS ∧
      (entryArgs 10 20 30 40 50 60).arg_u64 3
        = .ok ((entryArgs 10 20 30 40 50 60).args.getD 3 0) ∧
      (entryArgs 10 20 30 40 50 60).arg_u32 3
        = .ok ((entryArgs 10 20 30 40 50 60).args.getD 3 0 % 2 ^ 32)) :=
  ⟨by decide, entry_args_always_ok 10 20 30 40 50 60 3 (by decide)⟩

/-- C7: for every stack of length at least 8, the canary check succeeds
immediately after `init_task_stack`, and fails (a fatal corruption report in
the source) after byte 0 of the stack is overwritten with `0x00`. -/
theorem canary_detection (stack : List Nat) (h : 8 ≤ stack.length) :
    check_canary (init_task_stack stack) = true ∧
    check_canary ((init_task_stack stack).set 0 0x00) = false := by
  rw [init_task_stack_eq]
  constructor
  · rw [check_canary, List.take_left]
    simp
  · have hset : (STACK_CANARY ++ List.replicate (stack.length - 8) STACK_PATTERN).set 0 0x00
        = (STACK_CANARY.set 0 0x00) ++ List.replicate (stack.length - 8) STACK_PATTERN := by
      simp [STACK_CANARY, List.set_cons_zero]
    rw [check_canary, hset, List.take_left' (by simp [STACK_CANARY])]
    decide

/-- C7 witness: a stack of 10 bytes passes the check after initialization
and fails it after byte 0 is zeroed. -/
theorem canary_detection_witness :
    8 ≤ (List.replicate 10 0).length ∧
    (check_canary (init_task_stack (List.replicate 10 0)) = true ∧
      check_canary ((init_task_stack (List.replicate 10 0)).set 0 0x00) = false) :=
  ⟨by decide, canary_detection (List.replicate 10 0) (by decide)⟩

/-- C10: for every stack of length strictly greater than 8, immediately
after `init_task_stack` the usage estimate counts exactly the 8 canary bytes
as used — none of the canary bytes equals the watermark byte `0xA5` — and
the free estimate is the length minus 8. -/
theorem watermark_usage_after_init (stack : List Nat) (h : 8 < stack.length) :
    used_stack_bytes (init_task_stack stack) = 8 ∧
    free_stack_bytes (init_task_stack stack) = stack.length - 8 ∧
    ∀ b ∈ STACK_CANARY, b ≠ STACK_PATTERN := by
  have hused : used_stack_bytes (init_task_stack stack) = 8 := by
    rw [init_task_stack_eq, used_stack_bytes, List.reverse_append,
      List.reverse_replicate, takeWhile_replicate_append]
    have hcrev : STACK_CANARY.reverse.takeWhile (fun b => b == STACK_PATTERN) = [] := by
      decide
    rw [hcrev]
    simp only [List.append_nil, List.length_append, List.length_replicate,
      STACK_CANARY, List.length_cons, List.length_nil]
    omega
  refine ⟨hused, ?_, by decide⟩
  rw [free_stack_bytes, hused, init_task_stack_eq]
  simp only [List.length_append, List.length_replicate, STACK_CANARY,
    List.length_cons, List.length_nil]
  omega

/-- C3: the claim requires an unmapped source pointer to be rejected with
`BadAddress` before any copy, but the `copy_from_user` present in the source
is an unchecked copy with no failure path, so dispatching `SendMessage`
through it never returns `BadAddress` — for every user address space, every
context and all argument words. In particular, with the `SEND_MESSAGE`
capability, a wild source pointer `0xDEADBEEF` with length 10 is copied
blindly and the call returns `Ok 0` instead of `BadAddress`; and a length
argument of `2 ^ 32 + 10`, although greater than 4096, is truncated by the
Rust `as usize` cast (32-bit on the Cortex-M target) to 10, so the call also
returns `Ok 0` instead of `TooLarge`. -/
theorem sendmessage_never_badaddress :
    (∀ (um : Nat → Nat) (ctx : CurrentContext) (a0 a1 a2 a3 a4 a5 : Nat),
      dispatch_syscall (copy_from_user_stub um) .SendMessage ctx
        (entryArgs a0 a1 a2 a3 a4 a5) ≠ .error .BadAddress) ∧
    dispatch_syscall (copy_from_user_stub fun _ => 0) .SendMessage current_context
      (entryArgs 0xDEADBEEF 10 1 0 0 0) = .ok 0 ∧
    (2 ^ 32 + 10 : Nat) > 4096 ∧
    dispatch_syscall (copy_from_user_stub fun _ => 0) .SendMessage current_context
      (entryArgs 4096 (2 ^ 32 + 10) 1 0 0 0) = .ok 0 := by
  refine ⟨?_, by decide, by norm_num, by decide⟩
  intro um ctx a0 a1 a2 a3 a4 a5
  by_cases hcap : ctx.capabilities &&& caps.SEND_MESSAGE = 0
  · simp [dispatch_syscall, SendMessageSyscall.handle, hcap]
    decide
  · by_cases hlen : a1 % 4294967296 = 0 ∨ a1 % 4294967296 > 4096
    · simp [dispatch_syscall, SendMessageSyscall.handle, hcap,
        SyscallArgs.arg_u64, entryArgs, MAX_SYSCALL_ARGS, Except.mapError,
        Bind.bind, Except.bind, hlen]
      decide
    · simp [dispatch_syscall, SendMessageSyscall.handle, hcap,
        SyscallArgs.arg_u64, entryArgs, MAX_SYSCALL_ARGS, Except.mapError,
        Bind.bind, Except.bind, hlen, copy_from_user_stub, kernel_ipc_send,
        Functor.map, Except.map]
      decide

/-- C4: on every unsatisfiable allocation request the failure handler first
masks interrupts, performs exactly one write of an `OomRecord` carrying the
requested size, the requested alignment and the fixed marker constant,
invokes the diagnostic callback exactly when one was registered, and ends
with exactly one system reset as its final action (the handler diverges;
nothing follows the reset). -/
theorem oom_failure_policy (handler : Option Unit) (layout : Layout) :
    (alloc_error_handler handler layout).head? = some .disableInterrupts ∧
    (alloc_error_handler handler layout).take 2
      = [.disableInterrupts,
         .writeOomRecord { size := layout.size, align := layout.align, magic := OOM_MAGIC }] ∧
    (alloc_error_handler handler layout).filter OomEvent.isWrite
      = [.writeOomRecord { size := layout.size, align := layout.align, magic := OOM_MAGIC }] ∧
    ((alloc_error_handler handler layout).filter OomEvent.isCallback
      = if handler.isSome then [.userCallback layout] else []) ∧
    (alloc_error_handler handler layout).count .sysReset = 1 ∧
    (alloc_error_handler handler layout).getLast? = some .sysReset := by
  cases handler <;>
    simp [alloc_error_handler, OomEvent.isWrite, OomEvent.isCallback,
      List.filter, List.count_cons, List.count_nil]

/-- C6: switching A to B and then back to A restores the callee-saved
register set R4-R11 and the process stack pointer exactly, provided the
initial frame fits below the PSP and the frame pushed on the stack of B does
not overlap the frame saved for A (the stacks of distinct tasks are disjoint
regions). -/
theorem context_switch_roundtrip (m : Machine) (A B : KTask)
    (hp : 32 ≤ m.cpu.psp)
    (hdisj : B.stack_pointer + 32 ≤ m.cpu.psp - 32 ∨ m.cpu.psp ≤ B.stack_pointer) :
    (context_switch B (context_switch A B m).1 (context_switch A B m).2).2.cpu = m.cpu := by
  obtain ⟨⟨r4, r5, r6, r7, r8, r9, r10, r11, p⟩, mem⟩ := m
  simp only at hp hdisj
  simp only [context_switch, save_cpu_state, restore_cpu_state, Nat.add_sub_cancel,
    CpuState.mk.injEq]
  have hR := Mem.pushFrame_reads mem (p - 32) ⟨r4, r5, r6, r7, r8, r9, r10, r11, p⟩
  refine ⟨?_, ?_, ?_, ?_, ?_, ?_, ?_, ?_, by omega⟩ <;>
    rw [Mem.pushFrame_read_out _ _ _ _ (by omega)]
  · exact hR.1
  · exact hR.2.1
  · exact hR.2.2.1
  · exact hR.2.2.2.1
  · exact hR.2.2.2.2.1
  · exact hR.2.2.2.2.2.1
  · exact hR.2.2.2.2.2.2.1
  · exact hR.2.2.2.2.2.2.2

/-- A concrete machine for instantiating the context-switch round trip:
registers 1 to 8, PSP at 100, zeroed memory. -/
def rtMachine : Machine :=
  { cpu := { r4 := 1, r5 := 2, r6 := 3, r7 := 4, r8 := 5, r9 := 6, r10 := 7,
             r11 := 8, psp := 100 },
    mem := fun _ => 0 }

/-- C6 witness: the round trip instantiated at a concrete machine with task
A and task B whose stack regions are disjoint. -/
theorem context_switch_roundtrip_witness :
    32 ≤ rtMachine.cpu.psp ∧
    ((⟨1, 1, 200⟩ : KTask).stack_pointer + 32 ≤ rtMachine.cpu.psp - 32 ∨
      rtMachine.cpu.psp ≤ (⟨1, 1, 200⟩ : KTask).stack_pointer) ∧
    (context_switch ⟨1, 1, 200⟩
        (context_switch ⟨0, 0, 0⟩ ⟨1, 1, 200⟩ rtMachine).1
        (context_switch ⟨0, 0, 0⟩ ⟨1, 1, 200⟩ rtMachine).2).2.cpu = rtMachine.cpu :=
  ⟨by decide, Or.inr (by decide),
    context_switch_roundtrip rtMachine ⟨0, 0, 0⟩ ⟨1, 1, 200⟩ (by decide)
      (Or.inr (by decide))⟩

/-- C10 witness: a 12-byte stack shows 8 used bytes and 4 free bytes right
after initialization. -/
theorem watermark_usage_after_init_witness :
    8 < (List.replicate 12 7).length ∧
    (used_stack_bytes (init_task_stack (List.replicate 12 7)) = 8 ∧
      free_stack_bytes (init_task_stack (List.replicate 12 7))
        = (List.replicate 12 7).length - 8 ∧
      ∀ b ∈ STACK_CANARY, b ≠ STACK_PATTERN) :=
  ⟨by decide, watermark_usage_after_init (List.replicate 12 7) (by decide)⟩

end SecureIoTOS
